import Mathlib

/-!
Shallow embedding of the Lambda-Serverless execution core:
the Docker/gVisor sandbox runners (`virtualization/runner.py`,
`virtualization/gvisor_runner.py`), the warm container pool, the metrics
store (`backend/metrics.py`) and the runtime comparator (`backend/main.py`).

Durations measured with `time.time()` are modelled as exact rationals
(seconds); Python `int(x)` truncation is `pyInt`.  All nondeterminism of a
run (pool contents, injected engine/filesystem exceptions, measured times,
the exec outcome) is packaged into an explicit environment record, so each
runner becomes a pure function of its arguments and that environment.
-/

namespace LambdaServerless

attribute [local semireducible] Rat.mul Rat.inv Rat.add Rat.sub

/-- Python `str.lower()` on the ASCII language tags the code handles. -/
def pyLower (s : String) : String := ⟨s.data.map Char.toLower⟩

/-- Python `int(q)`: truncation toward zero (floor for nonnegative input). -/
def pyInt (q : ℚ) : Int :=
  if 0 ≤ q then q.floor else q.ceil

/-- `int(t * 1000)` — seconds to whole milliseconds, as the runners compute it. -/
def msOf (t : ℚ) : Int := pyInt (t * 1000)

/-- Outcome of `container.exec_run`: exit code and decoded stdout/stderr. -/
structure ExecOutcome where
  exitCode : Int
  stdout : String
  stderr : String
deriving Repr, DecidableEq

/-- The `metrics` dict built by the runners.  `warm_start` is a key only the
Docker runner writes; `cold_start` is a key neither runner ever writes (the
metrics store reads it with a dict get defaulting to True), so both are
`Option` — `none` models the key being absent from the dict. -/
structure Metrics where
  runtime : String
  language : String
  execution_time_ms : Int
  initialization_time_ms : Int
  total_time_ms : Int
  warm_start : Option Bool := none
  cold_start : Option Bool := none
  error : Option String := none
deriving Repr, DecidableEq

/-- The result dict a runner returns. -/
structure RunResult where
  status : String
  stdout : String
  stderr : String
  exit_code : Int
  metrics : Metrics
deriving Repr, DecidableEq

/-- One run's environment: what the pool, the container engine, the clock and
the user process do.  A `some msg` in a failure slot means the corresponding
engine/filesystem call raises an exception whose `str(e)` is `msg`. -/
structure Env where
  poolHasContainer : Bool
  createError : Option String
  stageError : Option String
  execError : Option String
  initTime : ℚ
  execTime : ℚ
  totalTime : ℚ
  outcome : ExecOutcome

/-- Observable container lifecycle facts of one run, used to state the
pool/teardown claims. -/
structure Trace where
  usedPooled : Bool
  containerCreated : Bool
  containerAcquired : Bool
  containerStopped : Bool
deriving Repr, DecidableEq

/-- `get_image_for_language` (identical in both runners): image for a
supported language tag, `ValueError` otherwise. -/
def get_image_for_language (language : String) : Except String String :=
  if pyLower language = "python" then
    .ok "python:3.9-slim"
  else if pyLower language = "javascript" ∨ pyLower language = "js" then
    .ok "node:16-alpine"
  else
    .error ("Unsupported language: " ++ language)

/-- The `except` handler shared by both runners: status `error`, empty stdout,
a stderr carrying the message, exit code −1, the metrics error field set to
str(e) and the metrics total time stamped. -/
def errorResult (msg : String) (m : Metrics) (totalTime : ℚ) : RunResult :=
  { status := "error"
    stdout := ""
    stderr := "Error executing function: " ++ msg
    exit_code := -1
    metrics := { m with total_time_ms := msOf totalTime, error := some msg } }

/-- Status classification (runner.py lines 243-260, duplicated verbatim in
gvisor_runner.py lines 121-138): `timeout` when the measured seconds exceed
the timeout, else `success`/`error` by exit code; returns the result dict and
the updated metrics dict. -/
def classify (timeout : Int) (execTime : ℚ) (oc : ExecOutcome) (m2 : Metrics) :
    RunResult × Metrics :=
  if execTime > (timeout : ℚ) then
    ({ status := "timeout"
       stdout := oc.stdout
       stderr := "Function execution timed out after " ++ toString timeout ++ " seconds"
       exit_code := -1
       metrics := m2 },
     { m2 with error := some "timeout" })
  else
    ({ status := if oc.exitCode = 0 then "success" else "error"
       stdout := oc.stdout
       stderr := oc.stderr
       exit_code := oc.exitCode
       metrics := m2 },
     if oc.exitCode = 0 then m2
     else { m2 with error := some ("exit_code_" ++ toString oc.exitCode) })

/-- Container acquisition of `run_in_docker` (lines 153-184): warm path tries
the pool, falls back to bucket creation (which looks the image up and so
raises on an unsupported language) plus a cold create; cold path looks the
image up and creates.  Returns `(usedPooled, containerCreated)` or the raised
message. -/
def acquireDocker (language : String) (warm : Bool) (env : Env) :
    Except String (Bool × Bool) :=
  if warm then
    if env.poolHasContainer then
      .ok (true, false)
    else
      match get_image_for_language language with
      | .error e => .error e
      | .ok _ =>
        match env.createError with
        | some e => .error e
        | none => .ok (false, true)
  else
    match get_image_for_language language with
    | .error e => .error e
    | .ok _ =>
      match env.createError with
      | some e => .error e
      | none => .ok (false, true)

/-- `run_in_docker(code, language, timeout, warm)` as a pure function of the
environment.  Mirrors runner.py lines 135-300: metrics initialisation, the
acquisition/staging/exec pipeline inside `try`, classification, the
keep-alive condition `warm and not warm or warm and execution_time < timeout
and exit_code == 0` (line 267) deciding whether `container.stop` runs, and
the `except` handler that stops the container only when `container and not
warm`. -/
def run_in_docker (language : String) (timeout : Int) (warm : Bool) (env : Env) :
    RunResult × Trace :=
  let m0 : Metrics :=
    { runtime := "docker"
      language := language
      execution_time_ms := 0
      initialization_time_ms := 0
      total_time_ms := 0
      warm_start := some warm
      error := none }
  match acquireDocker language warm env with
  | .error e =>
    (errorResult e m0 env.totalTime,
     { usedPooled := false, containerCreated := false
       containerAcquired := false, containerStopped := false })
  | .ok (pooled, created) =>
    let m1 := { m0 with initialization_time_ms := msOf env.initTime }
    match env.stageError with
    | some e =>
      (errorResult e m1 env.totalTime,
       { usedPooled := pooled, containerCreated := created
         containerAcquired := true, containerStopped := !warm })
    | none =>
      match env.execError with
      | some e =>
        (errorResult e m1 env.totalTime,
         { usedPooled := pooled, containerCreated := created
           containerAcquired := true, containerStopped := !warm })
      | none =>
        let m2 := { m1 with execution_time_ms := msOf env.execTime }
        let rm := classify timeout env.execTime env.outcome m2
        let m4 := { rm.2 with total_time_ms := msOf env.totalTime }
        let keepAlive := (warm && !warm) ||
          (warm && decide (env.execTime < (timeout : ℚ)) && decide (env.outcome.exitCode = 0))
        ({ rm.1 with metrics := m4 },
         { usedPooled := pooled, containerCreated := created
           containerAcquired := true, containerStopped := !keepAlive })

/-- `run_in_gvisor(code, language, timeout)` (gvisor_runner.py lines 26-162):
always cold-creates under `runsc`, classification identical to the Docker
runner, the container is stopped on the normal path and never stopped by the
`except` handler. -/
def run_in_gvisor (language : String) (timeout : Int) (env : Env) :
    RunResult × Trace :=
  let m0 : Metrics :=
    { runtime := "gvisor"
      language := language
      execution_time_ms := 0
      initialization_time_ms := 0
      total_time_ms := 0
      error := none }
  match get_image_for_language language with
  | .error e =>
    (errorResult e m0 env.totalTime,
     { usedPooled := false, containerCreated := false
       containerAcquired := false, containerStopped := false })
  | .ok _ =>
    match env.createError with
    | some e =>
      (errorResult e m0 env.totalTime,
       { usedPooled := false, containerCreated := false
         containerAcquired := false, containerStopped := false })
    | none =>
      let m1 := { m0 with initialization_time_ms := msOf env.initTime }
      match env.stageError with
      | some e =>
        (errorResult e m1 env.totalTime,
         { usedPooled := false, containerCreated := true
           containerAcquired := true, containerStopped := false })
      | none =>
        match env.execError with
        | some e =>
          (errorResult e m1 env.totalTime,
           { usedPooled := false, containerCreated := true
             containerAcquired := true, containerStopped := false })
        | none =>
          let m2 := { m1 with execution_time_ms := msOf env.execTime }
          let rm := classify timeout env.execTime env.outcome m2
          let m4 := { rm.2 with total_time_ms := msOf env.totalTime }
          ({ rm.1 with metrics := m4 },
           { usedPooled := false, containerCreated := true
             containerAcquired := true, containerStopped := true })

/-! ## Metrics store (`backend/metrics.py`) -/

/-- One stored `ExecutionMetric` row (columns relevant to the claims; the
SQLAlchemy id/timestamp and the unused memory/CPU columns are omitted). -/
structure ExecutionMetric where
  function_name : String
  runtime : String
  language : String
  cold_start : Bool
  initialization_time_ms : Int
  execution_time_ms : Int
  total_time_ms : Int
  status : String
  error_message : Option String
deriving Repr, DecidableEq

/-- `save_execution_metrics(db, function_name, result)` (metrics.py lines
31-53), as the row it inserts.  `cold_start` is read by a dict get with
default True, so an absent key (what both runners produce) defaults to
`true`. -/
def save_execution_metrics (function_name : String) (r : RunResult) : ExecutionMetric :=
  { function_name := function_name
    runtime := r.metrics.runtime
    language := r.metrics.language
    cold_start := r.metrics.cold_start.getD true
    initialization_time_ms := r.metrics.initialization_time_ms
    execution_time_ms := r.metrics.execution_time_ms
    total_time_ms := r.metrics.total_time_ms
    status := r.status
    error_message := r.metrics.error }

/-- The record `get_aggregated_metrics` returns.  Averages and rates are
exact rationals; the `stdev` field (a floating-point square root) is outside
every claim and not modelled. -/
structure AggRecord where
  count : Nat
  avg_execution_time_ms : ℚ
  p95_execution_time_ms : Option Int
  p99_execution_time_ms : Option Int
  avg_total_time_ms : ℚ
  success_rate : ℚ
  error_rate : ℚ
  timeout_rate : ℚ
  cold_start_percentage : ℚ
  docker_count : Nat
  gvisor_count : Nat
deriving Repr, DecidableEq

/-- `sorted(execution_times)`: Python's stable ascending sort. -/
def pySorted (l : List Int) : List Int := l.insertionSort (· ≤ ·)

/-- `int(len(execution_times) * q)` — the percentile index computed at
metrics.py lines 126-127. -/
def percentileIndex (n : Nat) (q : ℚ) : Int := pyInt ((n : ℚ) * q)

/-- `get_aggregated_metrics` (metrics.py lines 78-149) applied to the rows
the time-window query selected (the SQL filtering itself is external I/O).
Every pipeline-produced row has non-null integer times, so the
`is not None` filters keep every row.  List indexing models Python's
`sorted(...)[i]` (in bounds for the indices used — proved below). -/
def get_aggregated_metrics (metrics : List ExecutionMetric) : AggRecord :=
  if metrics.isEmpty then
    { count := 0
      avg_execution_time_ms := 0
      p95_execution_time_ms := none
      p99_execution_time_ms := none
      avg_total_time_ms := 0
      success_rate := 0
      error_rate := 0
      timeout_rate := 0
      cold_start_percentage := 0
      docker_count := 0
      gvisor_count := 0 }
  else
    let total_count := metrics.length
    let success_count := metrics.countP (fun m => m.status = "success")
    let error_count := metrics.countP (fun m => m.status = "error")
    let timeout_count := metrics.countP (fun m => m.status = "timeout")
    let cold_start_count := metrics.countP (fun m => m.cold_start)
    let execution_times : List Int := metrics.map (fun m => m.execution_time_ms)
    let total_times : List Int := metrics.map (fun m => m.total_time_ms)
    let avg_execution_time : ℚ := (execution_times.sum : ℚ) / (execution_times.length : ℚ)
    let avg_total_time : ℚ := (total_times.sum : ℚ) / (total_times.length : ℚ)
    let enough := 2 ≤ execution_times.length
    let p95 := (pySorted execution_times).getD (percentileIndex execution_times.length (95/100)).toNat 0
    let p99 := (pySorted execution_times).getD (percentileIndex execution_times.length (99/100)).toNat 0
    { count := total_count
      avg_execution_time_ms := avg_execution_time
      p95_execution_time_ms := if enough then some p95 else none
      p99_execution_time_ms := if enough then some p99 else none
      avg_total_time_ms := avg_total_time
      success_rate := (success_count : ℚ) / (total_count : ℚ)
      error_rate := (error_count : ℚ) / (total_count : ℚ)
      timeout_rate := (timeout_count : ℚ) / (total_count : ℚ)
      cold_start_percentage := (cold_start_count : ℚ) / (total_count : ℚ)
      docker_count := metrics.countP (fun m => m.runtime = "docker")
      gvisor_count := metrics.countP (fun m => m.runtime = "gvisor") }

/-! ## Warm container pool (`virtualization/runner.py` lines 16-95) -/

def max_pool_size : Nat := 5

/-- `add_container_to_pool` (lines 46-78) after the new container `c` has
been created: under the lock, insert into an existing bucket only while it
is under `max_pool_size`, otherwise stop the fresh container; a missing
bucket leaves the container untouched.  Returns the new bucket contents and
whether `c` was stopped. -/
def add_container_to_pool (bucket : Option (List Nat)) (c : Nat) :
    Option (List Nat) × Bool :=
  match bucket with
  | none => (none, false)
  | some l =>
    if l.length < max_pool_size then (some (l ++ [c]), false)
    else (some l, true)

/-- `get_container_from_pool` (lines 80-95): pop the oldest idle container
(FIFO), or `none` when the bucket is absent or empty. -/
def get_container_from_pool (bucket : Option (List Nat)) :
    Option Nat × Option (List Nat) :=
  match bucket with
  | none => (none, none)
  | some [] => (none, some [])
  | some (c :: rest) => (some c, some rest)

/-! ## Runtime comparator (`backend/main.py` lines 155-229) -/

/-- Per-runtime statistics block built by `compare_runtimes` (lines 198-214).
`statistics.mean` over a nonempty list is sum/length; the callers always pass
`iterations ≥ 1` results. -/
structure RuntimeStats where
  avg_init_time_ms : ℚ
  avg_exec_time_ms : ℚ
  avg_total_time_ms : ℚ
  min_total_time_ms : Int
  max_total_time_ms : Int
  success_rate : ℚ
deriving Repr, DecidableEq

def runtimeStats (results : List RunResult) (iterations : Nat) : RuntimeStats :=
  let init_times : List Int := results.map (fun r => r.metrics.initialization_time_ms)
  let exec_times : List Int := results.map (fun r => r.metrics.execution_time_ms)
  let total_times : List Int := results.map (fun r => r.metrics.total_time_ms)
  { avg_init_time_ms := (init_times.sum : ℚ) / (init_times.length : ℚ)
    avg_exec_time_ms := (exec_times.sum : ℚ) / (exec_times.length : ℚ)
    avg_total_time_ms := (total_times.sum : ℚ) / (total_times.length : ℚ)
    min_total_time_ms := (total_times.min?).getD 0
    max_total_time_ms := (total_times.max?).getD 0
    success_rate := ((results.countP (fun r => r.status = "success")) : ℚ) / (iterations : ℚ) }

/-- Python division: raises `ZeroDivisionError` on a zero divisor. -/
def pyDiv (a b : ℚ) : Except String ℚ :=
  if b = 0 then .error "ZeroDivisionError" else .ok (a / b)

/-- The `difference_percent` block of `compare_runtimes` (lines 221-225):
`(gvisor_mean - docker_mean) / docker_mean * 100` on each axis, with
Python's raising division made explicit. -/
def difference_percent (docker_stats gvisor_stats : RuntimeStats) :
    Except String (ℚ × ℚ × ℚ) := do
  let init ← pyDiv (gvisor_stats.avg_init_time_ms - docker_stats.avg_init_time_ms)
      docker_stats.avg_init_time_ms
  let ex ← pyDiv (gvisor_stats.avg_exec_time_ms - docker_stats.avg_exec_time_ms)
      docker_stats.avg_exec_time_ms
  let total ← pyDiv (gvisor_stats.avg_total_time_ms - docker_stats.avg_total_time_ms)
      docker_stats.avg_total_time_ms
  return (init * 100, ex * 100, total * 100)

/-- The `recommendation` field (line 226). -/
def recommendation (docker_stats gvisor_stats : RuntimeStats) : String :=
  if docker_stats.avg_total_time_ms < gvisor_stats.avg_total_time_ms then "docker"
  else "gvisor"

/-! ## General lemmas -/

theorem pyInt_eq_floor (q : ℚ) (h : 0 ≤ q) : pyInt q = ⌊q⌋ := by
  unfold pyInt
  rw [if_pos h]
  exact rfl

/-! ## Concrete run environments used to witness and refute claims -/

/-- A warm execution: the pool supplies a container, the user program exits 0
well inside the timeout, no engine or filesystem call fails. -/
def warmSuccessEnv : Env :=
  { poolHasContainer := true
    createError := none
    stageError := none
    execError := none
    initTime := 1/100
    execTime := 1/10
    totalTime := 1/5
    outcome := ⟨0, "ok", ""⟩ }

/-- A cold run whose measured execution time is half a millisecond past a
1-second timeout: 2001/2000 s, i.e. `execution_time_ms = 1000` after
truncation. -/
def boundaryTimeoutEnv : Env :=
  { poolHasContainer := false
    createError := none
    stageError := none
    execError := none
    initTime := 0
    execTime := 2001/2000
    totalTime := 2001/2000
    outcome := ⟨0, "", ""⟩ }

/-- The container engine is down: container creation raises. -/
def engineDownEnv : Env :=
  { poolHasContainer := false
    createError := some "engine down"
    stageError := none
    execError := none
    initTime := 0
    execTime := 0
    totalTime := 1/100
    outcome := ⟨0, "", ""⟩ }

/-- A default-runtime iteration that fails before any timing is recorded. -/
def dockerFailRun : RunResult := (run_in_docker "python" 30 false engineDownEnv).1

/-- A hardened-runtime iteration that succeeds. -/
def gvisorOkRun : RunResult := (run_in_gvisor "python" 30 warmSuccessEnv).1

/-- With a supported language and a working engine, Docker acquisition
succeeds: pooled exactly when `warm` and the pool had a container, freshly
created otherwise. -/
theorem acquireDocker_ok (language : String) (warm : Bool) (env : Env)
    (hi : (get_image_for_language language).isOk = true)
    (hc : env.createError = none) :
    acquireDocker language warm env =
      .ok (warm && env.poolHasContainer, !(warm && env.poolHasContainer)) := by
  cases hv : get_image_for_language language with
  | error e =>
    rw [hv] at hi
    exact absurd hi (by simp [Except.isOk, Except.toBool])
  | ok img =>
    unfold acquireDocker
    cases warm <;> cases hp : env.poolHasContainer <;> simp [hv, hc, hp]

/-- On a failure-free Docker run, the four observable fields the
status-classification claims talk about, expressed by the branch structure of
runner.py lines 243-260. -/
theorem run_in_docker_happy_fields (language : String) (timeout : Int) (warm : Bool)
    (env : Env)
    (hi : (get_image_for_language language).isOk = true)
    (hc : env.createError = none) (hs : env.stageError = none)
    (he : env.execError = none) :
    (run_in_docker language timeout warm env).1.status =
      (if env.execTime > (timeout : ℚ) then "timeout"
       else if env.outcome.exitCode = 0 then "success" else "error") ∧
    (run_in_docker language timeout warm env).1.exit_code =
      (if env.execTime > (timeout : ℚ) then -1 else env.outcome.exitCode) ∧
    (run_in_docker language timeout warm env).1.metrics.execution_time_ms =
      msOf env.execTime ∧
    (run_in_docker language timeout warm env).1.metrics.error =
      (if env.execTime > (timeout : ℚ) then some "timeout"
       else if env.outcome.exitCode = 0 then none
       else some ("exit_code_" ++ toString env.outcome.exitCode)) := by
  have ha := acquireDocker_ok language warm env hi hc
  unfold run_in_docker
  rw [ha]
  simp only [hs, he]
  unfold classify
  by_cases hgt : env.execTime > (timeout : ℚ)
  · simp [hgt]
  · by_cases hz : env.outcome.exitCode = 0 <;> simp [hgt, hz]

/-- On a failure-free gVisor run, the same four observable fields
(gvisor_runner.py lines 121-138). -/
theorem run_in_gvisor_happy_fields (language : String) (timeout : Int) (env : Env)
    (hi : (get_image_for_language language).isOk = true)
    (hc : env.createError = none) (hs : env.stageError = none)
    (he : env.execError = none) :
    (run_in_gvisor language timeout env).1.status =
      (if env.execTime > (timeout : ℚ) then "timeout"
       else if env.outcome.exitCode = 0 then "success" else "error") ∧
    (run_in_gvisor language timeout env).1.exit_code =
      (if env.execTime > (timeout : ℚ) then -1 else env.outcome.exitCode) ∧
    (run_in_gvisor language timeout env).1.metrics.execution_time_ms =
      msOf env.execTime ∧
    (run_in_gvisor language timeout env).1.metrics.error =
      (if env.execTime > (timeout : ℚ) then some "timeout"
       else if env.outcome.exitCode = 0 then none
       else some ("exit_code_" ++ toString env.outcome.exitCode)) := by
  cases hv : get_image_for_language language with
  | error e =>
    rw [hv] at hi
    exact absurd hi (by simp [Except.isOk, Except.toBool])
  | ok img =>
    unfold run_in_gvisor
    rw [hv]
    simp only [hc, hs, he]
    unfold classify
    by_cases hgt : env.execTime > (timeout : ℚ)
    · simp [hgt]
    · by_cases hz : env.outcome.exitCode = 0 <;> simp [hgt, hz]

/-! ## Claim theorems -/

/-- C1 counterexample: with timeout 1 s and a measured execution time of
2001/2000 s the runner classifies the run as `timeout` (the float-second
comparison `execution_time > timeout` is true), yet the stored
`execution_time_ms = int(1.0005 * 1000) = 1000` is not greater than
`timeout * 1000`, so `status = timeout iff execution_time_ms > timeout*1000`
fails in the forward direction. -/
theorem C1_counterexample :
    (run_in_docker "python" 1 false boundaryTimeoutEnv).1.status = "timeout" ∧
    ¬ ((run_in_docker "python" 1 false boundaryTimeoutEnv).1.metrics.execution_time_ms
        > 1 * 1000) := by
  decide

/-- C1 (amended): on every failure-free execution (default or hardened
runtime), `status = timeout` iff the measured execution time in seconds
exceeds the timeout; consequently `execution_time_ms > timeout*1000` implies
`status = timeout`, `status = timeout` implies
`execution_time_ms ≥ timeout*1000` (only `≥`, by millisecond truncation),
and the executor never reports `success` for an execution that took longer
than `timeout` seconds. -/
theorem C1_timeout_classification (language : String) (timeout : Int) (warm : Bool)
    (env : Env) (h0 : 0 ≤ env.execTime)
    (hi : (get_image_for_language language).isOk = true)
    (hc : env.createError = none) (hs : env.stageError = none)
    (he : env.execError = none) :
    ((run_in_docker language timeout warm env).1.status = "timeout" ↔
      env.execTime > (timeout : ℚ)) ∧
    (env.execTime > (timeout : ℚ) →
      (run_in_docker language timeout warm env).1.status ≠ "success") ∧
    ((run_in_docker language timeout warm env).1.metrics.execution_time_ms > timeout * 1000 →
      (run_in_docker language timeout warm env).1.status = "timeout") ∧
    ((run_in_docker language timeout warm env).1.status = "timeout" →
      (run_in_docker language timeout warm env).1.metrics.execution_time_ms ≥ timeout * 1000) ∧
    ((run_in_gvisor language timeout env).1.status = "timeout" ↔
      env.execTime > (timeout : ℚ)) ∧
    (env.execTime > (timeout : ℚ) →
      (run_in_gvisor language timeout env).1.status ≠ "success") ∧
    ((run_in_gvisor language timeout env).1.metrics.execution_time_ms > timeout * 1000 →
      (run_in_gvisor language timeout env).1.status = "timeout") ∧
    ((run_in_gvisor language timeout env).1.status = "timeout" →
      (run_in_gvisor language timeout env).1.metrics.execution_time_ms ≥ timeout * 1000) := by
  obtain ⟨hds, -, hdm, -⟩ := run_in_docker_happy_fields language timeout warm env hi hc hs he
  obtain ⟨hgs, -, hgm, -⟩ := run_in_gvisor_happy_fields language timeout env hi hc hs he
  have hms : msOf env.execTime = ⌊env.execTime * 1000⌋ :=
    pyInt_eq_floor _ (mul_nonneg h0 (by norm_num))
  have main : ∀ status : String, ∀ ms : Int,
      status = (if env.execTime > (timeout : ℚ) then "timeout"
                else if env.outcome.exitCode = 0 then "success" else "error") →
      ms = msOf env.execTime →
      ((status = "timeout" ↔ env.execTime > (timeout : ℚ)) ∧
       (env.execTime > (timeout : ℚ) → status ≠ "success") ∧
       (ms > timeout * 1000 → status = "timeout") ∧
       (status = "timeout" → ms ≥ timeout * 1000)) := by
    intro status ms hstat hmseq
    subst hstat
    subst hmseq
    rw [hms]
    by_cases hgt : env.execTime > (timeout : ℚ)
    · refine ⟨by simp [hgt], ?_, fun _ => by rw [if_pos hgt], fun _ => ?_⟩
      · intro _
        rw [if_pos hgt]
        decide
      · rw [ge_iff_le, Int.le_floor]
        push_cast
        have := mul_le_mul_of_nonneg_right (le_of_lt hgt) (by norm_num : (0:ℚ) ≤ 1000)
        linarith
    · have hneq : (if env.outcome.exitCode = 0 then "success" else "error") ≠ "timeout" := by
        by_cases hz : env.outcome.exitCode = 0 <;> simp [hz]
      refine ⟨?_, fun h => absurd h hgt, ?_, ?_⟩
      · rw [if_neg hgt]
        simp [hneq, hgt]
      · intro hgtms
        exfalso
        rw [gt_iff_lt, Int.lt_iff_add_one_le, Int.le_floor] at hgtms
        push_cast at hgtms
        have hle : env.execTime ≤ (timeout : ℚ) := le_of_not_lt hgt
        have := mul_le_mul_of_nonneg_right hle (by norm_num : (0:ℚ) ≤ 1000)
        linarith
      · intro habs
        rw [if_neg hgt] at habs
        exact absurd habs hneq
  obtain ⟨d1, d2, d3, d4⟩ := main _ _ hds hdm
  obtain ⟨g1, g2, g3, g4⟩ := main _ _ hgs hgm
  exact ⟨d1, d2, d3, d4, g1, g2, g3, g4⟩

theorem C1_timeout_classification_witness :
    ((run_in_docker "python" 30 false warmSuccessEnv).1.status = "timeout" ↔
      warmSuccessEnv.execTime > ((30 : Int) : ℚ)) ∧
    (warmSuccessEnv.execTime > ((30 : Int) : ℚ) →
      (run_in_docker "python" 30 false warmSuccessEnv).1.status ≠ "success") ∧
    ((run_in_docker "python" 30 false warmSuccessEnv).1.metrics.execution_time_ms > 30 * 1000 →
      (run_in_docker "python" 30 false warmSuccessEnv).1.status = "timeout") ∧
    ((run_in_docker "python" 30 false warmSuccessEnv).1.status = "timeout" →
      (run_in_docker "python" 30 false warmSuccessEnv).1.metrics.execution_time_ms ≥ 30 * 1000) ∧
    ((run_in_gvisor "python" 30 warmSuccessEnv).1.status = "timeout" ↔
      warmSuccessEnv.execTime > ((30 : Int) : ℚ)) ∧
    (warmSuccessEnv.execTime > ((30 : Int) : ℚ) →
      (run_in_gvisor "python" 30 warmSuccessEnv).1.status ≠ "success") ∧
    ((run_in_gvisor "python" 30 warmSuccessEnv).1.metrics.execution_time_ms > 30 * 1000 →
      (run_in_gvisor "python" 30 warmSuccessEnv).1.status = "timeout") ∧
    ((run_in_gvisor "python" 30 warmSuccessEnv).1.status = "timeout" →
      (run_in_gvisor "python" 30 warmSuccessEnv).1.metrics.execution_time_ms ≥ 30 * 1000) :=
  C1_timeout_classification "python" 30 false warmSuccessEnv (by decide)
    (by decide) rfl rfl rfl

/-- C5: on every failure-free execution (either runtime) that completes
within its timeout, `status = success` iff the exit code is 0, and a nonzero
exit code `n` yields `status = error` with error tag `exit_code_<n>`; a
run past the timeout yields exit code −1 and error tag `timeout`. -/
theorem C5_status_classification (language : String) (timeout : Int) (warm : Bool)
    (env : Env)
    (hi : (get_image_for_language language).isOk = true)
    (hc : env.createError = none) (hs : env.stageError = none)
    (he : env.execError = none) :
    (¬ env.execTime > (timeout : ℚ) →
      (((run_in_docker language timeout warm env).1.status = "success" ↔
          env.outcome.exitCode = 0) ∧
       (env.outcome.exitCode ≠ 0 →
          (run_in_docker language timeout warm env).1.status = "error" ∧
          (run_in_docker language timeout warm env).1.metrics.error =
            some ("exit_code_" ++ toString env.outcome.exitCode)) ∧
       ((run_in_gvisor language timeout env).1.status = "success" ↔
          env.outcome.exitCode = 0) ∧
       (env.outcome.exitCode ≠ 0 →
          (run_in_gvisor language timeout env).1.status = "error" ∧
          (run_in_gvisor language timeout env).1.metrics.error =
            some ("exit_code_" ++ toString env.outcome.exitCode)))) ∧
    (env.execTime > (timeout : ℚ) →
      ((run_in_docker language timeout warm env).1.status = "timeout" ∧
       (run_in_docker language timeout warm env).1.exit_code = -1 ∧
       (run_in_docker language timeout warm env).1.metrics.error = some "timeout" ∧
       (run_in_gvisor language timeout env).1.status = "timeout" ∧
       (run_in_gvisor language timeout env).1.exit_code = -1 ∧
       (run_in_gvisor language timeout env).1.metrics.error = some "timeout")) := by
  obtain ⟨hds, hdx, -, hde⟩ := run_in_docker_happy_fields language timeout warm env hi hc hs he
  obtain ⟨hgs, hgx, -, hge⟩ := run_in_gvisor_happy_fields language timeout env hi hc hs he
  constructor
  · intro hgt
    rw [hds, hde, hgs, hge]
    simp only [if_neg hgt]
    by_cases hz : env.outcome.exitCode = 0
    · simp [hz]
    · simp [hz]
  · intro hgt
    rw [hds, hdx, hde, hgs, hgx, hge]
    simp only [if_pos hgt]
    exact ⟨trivial, trivial, trivial, trivial, trivial, trivial⟩

/-- A failure-free run whose user process exits with code 2. -/
def errorExitEnv : Env :=
  { poolHasContainer := false
    createError := none
    stageError := none
    execError := none
    initTime := 1/100
    execTime := 1/10
    totalTime := 1/5
    outcome := ⟨2, "", "boom"⟩ }

theorem C5_status_classification_witness :
    (¬ errorExitEnv.execTime > ((30 : Int) : ℚ) →
      (((run_in_docker "python" 30 false errorExitEnv).1.status = "success" ↔
          errorExitEnv.outcome.exitCode = 0) ∧
       (errorExitEnv.outcome.exitCode ≠ 0 →
          (run_in_docker "python" 30 false errorExitEnv).1.status = "error" ∧
          (run_in_docker "python" 30 false errorExitEnv).1.metrics.error =
            some ("exit_code_" ++ toString errorExitEnv.outcome.exitCode)) ∧
       ((run_in_gvisor "python" 30 errorExitEnv).1.status = "success" ↔
          errorExitEnv.outcome.exitCode = 0) ∧
       (errorExitEnv.outcome.exitCode ≠ 0 →
          (run_in_gvisor "python" 30 errorExitEnv).1.status = "error" ∧
          (run_in_gvisor "python" 30 errorExitEnv).1.metrics.error =
            some ("exit_code_" ++ toString errorExitEnv.outcome.exitCode)))) ∧
    (errorExitEnv.execTime > ((30 : Int) : ℚ) →
      ((run_in_docker "python" 30 false errorExitEnv).1.status = "timeout" ∧
       (run_in_docker "python" 30 false errorExitEnv).1.exit_code = -1 ∧
       (run_in_docker "python" 30 false errorExitEnv).1.metrics.error = some "timeout" ∧
       (run_in_gvisor "python" 30 errorExitEnv).1.status = "timeout" ∧
       (run_in_gvisor "python" 30 errorExitEnv).1.exit_code = -1 ∧
       (run_in_gvisor "python" 30 errorExitEnv).1.metrics.error = some "timeout")) :=
  C5_status_classification "python" 30 false errorExitEnv (by decide) rfl rfl rfl

/-- C2: FALSE on the code.  A warm execution that succeeds within its timeout
acquires a container but returns without stopping it: the keep-alive branch
at runner.py line 267 neither stops the container nor returns it to the pool,
so the container is not destroyed before the result is returned. -/
theorem C2_container_leak :
    (run_in_docker "python" 30 true warmSuccessEnv).2.containerAcquired = true ∧
    (run_in_docker "python" 30 true warmSuccessEnv).1.status = "success" ∧
    (run_in_docker "python" 30 true warmSuccessEnv).2.usedPooled = true ∧
    (run_in_docker "python" 30 true warmSuccessEnv).2.containerStopped = false := by
  decide

/-- C3: FALSE on the code.  A run that reused a pooled container is stored
with `cold_start = true`: the runner records the key `warm_start` in its
metrics dict, while `save_execution_metrics` reads `cold_start` with default
`True`, so every stored row has `cold_start = true` even when the warm pool
was used. -/
theorem C3_cold_start_always_true :
    (run_in_docker "python" 30 true warmSuccessEnv).2.usedPooled = true ∧
    (run_in_docker "python" 30 true warmSuccessEnv).1.metrics.warm_start = some true ∧
    (save_execution_metrics "f" (run_in_docker "python" 30 true warmSuccessEnv).1).cold_start
      = true := by
  decide

/-- C4: FALSE on the code.  When every default-runtime iteration fails before
exec (here: the engine is down, so `initialization_time_ms` and
`execution_time_ms` are 0), the `difference_percent` computation of
`compare_runtimes` divides by the zero Docker mean and raises
`ZeroDivisionError` instead of reporting null. -/
theorem C4_division_by_zero :
    dockerFailRun.status = "error" ∧
    (runtimeStats [dockerFailRun, dockerFailRun] 2).avg_init_time_ms = 0 ∧
    difference_percent (runtimeStats [dockerFailRun, dockerFailRun] 2)
        (runtimeStats [gvisorOkRun, gvisorOkRun] 2)
      = .error "ZeroDivisionError" := by
  exact ⟨by decide, by decide, by rfl⟩

/-- Every row the pipeline stores has one of the three runner statuses, so
the three status counts partition the row count. -/
theorem statusCount_partition (rows : List ExecutionMetric)
    (hst : ∀ m ∈ rows, m.status = "success" ∨ m.status = "error" ∨ m.status = "timeout") :
    rows.countP (fun m => m.status = "success") +
      rows.countP (fun m => m.status = "error") +
      rows.countP (fun m => m.status = "timeout") = rows.length := by
  induction rows with
  | nil => rfl
  | cons hd tl ih =>
    have htl := ih (fun m hm => hst m (List.mem_cons_of_mem hd hm))
    have hhd := hst hd (List.mem_cons_self hd tl)
    simp only [List.countP_cons, List.length_cons]
    rcases hhd with h | h | h <;> simp [h] <;> omega

/-- Rows stored through `save_execution_metrics` of a successful and a failed
run, used to witness the aggregation claims. -/
def successRow : ExecutionMetric := save_execution_metrics "f" gvisorOkRun

def errorRow : ExecutionMetric := save_execution_metrics "f" dockerFailRun

/-- C6: over any non-empty selection of pipeline-produced rows (each row's
status is `success`, `error` or `timeout`), the three rates returned by
`get_aggregated_metrics` lie in [0,1] and sum to 1. -/
theorem C6_rates (rows : List ExecutionMetric) (hne : rows ≠ [])
    (hst : ∀ m ∈ rows, m.status = "success" ∨ m.status = "error" ∨ m.status = "timeout") :
    0 ≤ (get_aggregated_metrics rows).success_rate ∧
    (get_aggregated_metrics rows).success_rate ≤ 1 ∧
    0 ≤ (get_aggregated_metrics rows).error_rate ∧
    (get_aggregated_metrics rows).error_rate ≤ 1 ∧
    0 ≤ (get_aggregated_metrics rows).timeout_rate ∧
    (get_aggregated_metrics rows).timeout_rate ≤ 1 ∧
    (get_aggregated_metrics rows).success_rate + (get_aggregated_metrics rows).error_rate +
      (get_aggregated_metrics rows).timeout_rate = 1 := by
  have hemp : rows.isEmpty = false := by
    cases rows with
    | nil => exact absurd rfl hne
    | cons hd tl => rfl
  have hn : (0:ℚ) < (rows.length : ℚ) := by
    have h : 0 < rows.length := List.length_pos.mpr hne
    exact_mod_cast h
  have hpart := statusCount_partition rows hst
  have hbound : ∀ p : ExecutionMetric → Bool,
      0 ≤ ((rows.countP p : ℚ) / (rows.length : ℚ)) ∧
      ((rows.countP p : ℚ) / (rows.length : ℚ)) ≤ 1 := by
    intro p
    constructor
    · positivity
    · rw [div_le_one hn]
      exact_mod_cast List.countP_le_length p
  simp only [get_aggregated_metrics, hemp, Bool.false_eq_true, if_false]
  refine ⟨(hbound _).1, (hbound _).2, (hbound _).1, (hbound _).2, (hbound _).1,
    (hbound _).2, ?_⟩
  rw [div_add_div_same, div_add_div_same]
  rw [show ((rows.countP (fun m => m.status = "success") : ℚ) +
      (rows.countP (fun m => m.status = "error") : ℚ) +
      (rows.countP (fun m => m.status = "timeout") : ℚ)) = ((rows.length : ℚ)) by
    exact_mod_cast hpart]
  exact div_self (ne_of_gt hn)

theorem C6_rates_witness :
    0 ≤ (get_aggregated_metrics [successRow, errorRow]).success_rate ∧
    (get_aggregated_metrics [successRow, errorRow]).success_rate ≤ 1 ∧
    0 ≤ (get_aggregated_metrics [successRow, errorRow]).error_rate ∧
    (get_aggregated_metrics [successRow, errorRow]).error_rate ≤ 1 ∧
    0 ≤ (get_aggregated_metrics [successRow, errorRow]).timeout_rate ∧
    (get_aggregated_metrics [successRow, errorRow]).timeout_rate ≤ 1 ∧
    (get_aggregated_metrics [successRow, errorRow]).success_rate +
      (get_aggregated_metrics [successRow, errorRow]).error_rate +
      (get_aggregated_metrics [successRow, errorRow]).timeout_rate = 1 :=
  C6_rates [successRow, errorRow] (by decide) (by decide)

/-- C7: `get_aggregated_metrics` on no rows returns the zero-filled record;
on exactly one row the averages equal that row's times and the percentiles
are absent; on `n ≥ 2` rows the percentiles are the sorted execution times
indexed at `floor(n * 0.95)` and `floor(n * 0.99)`. -/
theorem C7_aggregate (rows : List ExecutionMetric) (m : ExecutionMetric)
    (h2 : 2 ≤ rows.length) :
    get_aggregated_metrics [] =
      { count := 0
        avg_execution_time_ms := 0
        p95_execution_time_ms := none
        p99_execution_time_ms := none
        avg_total_time_ms := 0
        success_rate := 0
        error_rate := 0
        timeout_rate := 0
        cold_start_percentage := 0
        docker_count := 0
        gvisor_count := 0 } ∧
    ((get_aggregated_metrics [m]).count = 1 ∧
     (get_aggregated_metrics [m]).avg_execution_time_ms = (m.execution_time_ms : ℚ) ∧
     (get_aggregated_metrics [m]).avg_total_time_ms = (m.total_time_ms : ℚ) ∧
     (get_aggregated_metrics [m]).p95_execution_time_ms = none ∧
     (get_aggregated_metrics [m]).p99_execution_time_ms = none) ∧
    ((get_aggregated_metrics rows).p95_execution_time_ms =
       some ((pySorted (rows.map (fun x => x.execution_time_ms))).getD
         (⌊(rows.length : ℚ) * (95/100)⌋).toNat 0) ∧
     (get_aggregated_metrics rows).p99_execution_time_ms =
       some ((pySorted (rows.map (fun x => x.execution_time_ms))).getD
         (⌊(rows.length : ℚ) * (99/100)⌋).toNat 0)) := by
  refine ⟨by decide, ?_, ?_⟩
  · simp [get_aggregated_metrics]
  · have hne : rows ≠ [] := by
      intro h
      rw [h] at h2
      exact absurd h2 (by decide)
    have hemp : rows.isEmpty = false := by
      cases rows with
      | nil => exact absurd rfl hne
      | cons hd tl => rfl
    have hlenmap : (rows.map (fun x => x.execution_time_ms)).length = rows.length :=
      List.length_map _ _
    have henough : 2 ≤ (rows.map (fun x => x.execution_time_ms)).length := by
      rw [hlenmap]; exact h2
    have hidx : ∀ q : ℚ, 0 ≤ q →
        percentileIndex (rows.map (fun x => x.execution_time_ms)).length q =
          ⌊(rows.length : ℚ) * q⌋ := by
      intro q hq
      unfold percentileIndex
      rw [hlenmap, pyInt_eq_floor _ (by positivity)]
    simp only [get_aggregated_metrics, hemp, Bool.false_eq_true, if_false]
    rw [if_pos henough, if_pos henough, hidx _ (by norm_num), hidx _ (by norm_num)]
    exact ⟨rfl, rfl⟩

theorem C7_aggregate_witness :
    get_aggregated_metrics [] =
      { count := 0
        avg_execution_time_ms := 0
        p95_execution_time_ms := none
        p99_execution_time_ms := none
        avg_total_time_ms := 0
        success_rate := 0
        error_rate := 0
        timeout_rate := 0
        cold_start_percentage := 0
        docker_count := 0
        gvisor_count := 0 } ∧
    ((get_aggregated_metrics [successRow]).count = 1 ∧
     (get_aggregated_metrics [successRow]).avg_execution_time_ms =
       (successRow.execution_time_ms : ℚ) ∧
     (get_aggregated_metrics [successRow]).avg_total_time_ms =
       (successRow.total_time_ms : ℚ) ∧
     (get_aggregated_metrics [successRow]).p95_execution_time_ms = none ∧
     (get_aggregated_metrics [successRow]).p99_execution_time_ms = none) ∧
    ((get_aggregated_metrics [successRow, errorRow]).p95_execution_time_ms =
       some ((pySorted ([successRow, errorRow].map (fun x => x.execution_time_ms))).getD
         (⌊(([successRow, errorRow] : List ExecutionMetric).length : ℚ) * (95/100)⌋).toNat 0) ∧
     (get_aggregated_metrics [successRow, errorRow]).p99_execution_time_ms =
       some ((pySorted ([successRow, errorRow].map (fun x => x.execution_time_ms))).getD
         (⌊(([successRow, errorRow] : List ExecutionMetric).length : ℚ) * (99/100)⌋).toNat 0)) :=
  C7_aggregate [successRow, errorRow] successRow (by decide)

/-- C8: every engine or filesystem failure (acquisition, staging or exec, in
either runner) is caught: the runner returns normally with `status = error`,
exit code −1, empty stdout, a stderr carrying the failure message, and the
metrics error field holding the message; an unsupported language additionally
yields `initialization_time_ms = 0`, `execution_time_ms = 0` and no container
is created (the pool never holds a container for an unsupported tag). -/
theorem C8_error_handling (language : String) (timeout : Int) (warm : Bool)
    (env : Env) (e : String)
    (hd : acquireDocker language warm env = .error e ∨
          ((∃ p, acquireDocker language warm env = .ok p) ∧ env.stageError = some e) ∨
          ((∃ p, acquireDocker language warm env = .ok p) ∧ env.stageError = none ∧
            env.execError = some e))
    (hg : get_image_for_language language = .error e ∨
          ((∃ img, get_image_for_language language = .ok img) ∧
            env.createError = some e) ∨
          ((∃ img, get_image_for_language language = .ok img) ∧
            env.createError = none ∧ env.stageError = some e) ∨
          ((∃ img, get_image_for_language language = .ok img) ∧
            env.createError = none ∧ env.stageError = none ∧ env.execError = some e)) :
    ((run_in_docker language timeout warm env).1.status = "error" ∧
     (run_in_docker language timeout warm env).1.exit_code = -1 ∧
     (run_in_docker language timeout warm env).1.stdout = "" ∧
     (run_in_docker language timeout warm env).1.stderr =
       "Error executing function: " ++ e ∧
     (run_in_docker language timeout warm env).1.metrics.error = some e) ∧
    ((run_in_gvisor language timeout env).1.status = "error" ∧
     (run_in_gvisor language timeout env).1.exit_code = -1 ∧
     (run_in_gvisor language timeout env).1.stdout = "" ∧
     (run_in_gvisor language timeout env).1.stderr =
       "Error executing function: " ++ e ∧
     (run_in_gvisor language timeout env).1.metrics.error = some e) ∧
    (get_image_for_language language = .error e → env.poolHasContainer = false →
      (run_in_docker language timeout warm env).1.metrics.initialization_time_ms = 0 ∧
      (run_in_docker language timeout warm env).1.metrics.execution_time_ms = 0 ∧
      (run_in_docker language timeout warm env).2.containerAcquired = false ∧
      (run_in_docker language timeout warm env).2.containerCreated = false ∧
      (run_in_gvisor language timeout env).1.metrics.initialization_time_ms = 0 ∧
      (run_in_gvisor language timeout env).1.metrics.execution_time_ms = 0 ∧
      (run_in_gvisor language timeout env).2.containerAcquired = false) := by
  refine ⟨?_, ?_, ?_⟩
  · rcases hd with ha | ⟨⟨p, hp⟩, hst⟩ | ⟨⟨p, hp⟩, hst, hex⟩
    · simp [run_in_docker, ha, errorResult]
    · obtain ⟨p1, p2⟩ := p
      simp [run_in_docker, hp, hst, errorResult]
    · obtain ⟨p1, p2⟩ := p
      simp [run_in_docker, hp, hst, hex, errorResult]
  · rcases hg with hv | ⟨⟨img, hv⟩, hce⟩ | ⟨⟨img, hv⟩, hce, hst⟩ | ⟨⟨img, hv⟩, hce, hst, hex⟩
    · simp [run_in_gvisor, hv, errorResult]
    · simp [run_in_gvisor, hv, hce, errorResult]
    · simp [run_in_gvisor, hv, hce, hst, errorResult]
    · simp [run_in_gvisor, hv, hce, hst, hex, errorResult]
  · intro himg hpool
    have ha : acquireDocker language warm env = .error e := by
      unfold acquireDocker
      cases warm with
      | false => simp [himg]
      | true => simp [hpool, himg]
    simp [run_in_docker, run_in_gvisor, ha, himg, errorResult]

/-- An execution request for the unsupported language tag `ruby`. -/
def unsupportedEnv : Env :=
  { poolHasContainer := false
    createError := none
    stageError := none
    execError := none
    initTime := 0
    execTime := 0
    totalTime := 1/1000
    outcome := ⟨0, "", ""⟩ }

theorem C8_error_handling_witness :
    ((run_in_docker "ruby" 30 true unsupportedEnv).1.status = "error" ∧
     (run_in_docker "ruby" 30 true unsupportedEnv).1.exit_code = -1 ∧
     (run_in_docker "ruby" 30 true unsupportedEnv).1.stdout = "" ∧
     (run_in_docker "ruby" 30 true unsupportedEnv).1.stderr =
       "Error executing function: " ++ "Unsupported language: ruby" ∧
     (run_in_docker "ruby" 30 true unsupportedEnv).1.metrics.error =
       some "Unsupported language: ruby") ∧
    ((run_in_gvisor "ruby" 30 unsupportedEnv).1.status = "error" ∧
     (run_in_gvisor "ruby" 30 unsupportedEnv).1.exit_code = -1 ∧
     (run_in_gvisor "ruby" 30 unsupportedEnv).1.stdout = "" ∧
     (run_in_gvisor "ruby" 30 unsupportedEnv).1.stderr =
       "Error executing function: " ++ "Unsupported language: ruby" ∧
     (run_in_gvisor "ruby" 30 unsupportedEnv).1.metrics.error =
       some "Unsupported language: ruby") ∧
    (get_image_for_language "ruby" = .error "Unsupported language: ruby" →
      unsupportedEnv.poolHasContainer = false →
      (run_in_docker "ruby" 30 true unsupportedEnv).1.metrics.initialization_time_ms = 0 ∧
      (run_in_docker "ruby" 30 true unsupportedEnv).1.metrics.execution_time_ms = 0 ∧
      (run_in_docker "ruby" 30 true unsupportedEnv).2.containerAcquired = false ∧
      (run_in_docker "ruby" 30 true unsupportedEnv).2.containerCreated = false ∧
      (run_in_gvisor "ruby" 30 unsupportedEnv).1.metrics.initialization_time_ms = 0 ∧
      (run_in_gvisor "ruby" 30 unsupportedEnv).1.metrics.execution_time_ms = 0 ∧
      (run_in_gvisor "ruby" 30 unsupportedEnv).2.containerAcquired = false) :=
  C8_error_handling "ruby" 30 true unsupportedEnv "Unsupported language: ruby"
    (Or.inl rfl) (Or.inl rfl)

/-- C9: a bucket holding at most `max_pool_size` idle containers still holds
at most `max_pool_size` after a replenishment, and a replenishment that finds
the bucket full stops the freshly created container instead of inserting
it. -/
theorem C9_pool_bound (l : List Nat) (c : Nat) (h : l.length ≤ max_pool_size) :
    (((add_container_to_pool (some l) c).1).getD []).length ≤ max_pool_size ∧
    (l.length = max_pool_size → add_container_to_pool (some l) c = (some l, true)) := by
  constructor
  · unfold add_container_to_pool
    by_cases hlt : l.length < max_pool_size
    · simp only [if_pos hlt, Option.getD_some, List.length_append, List.length_cons,
        List.length_nil]
      omega
    · simp only [if_neg hlt, Option.getD_some]
      exact h
  · intro hfull
    simp only [add_container_to_pool]
    rw [if_neg (by rw [hfull]; exact lt_irrefl _)]

theorem C9_pool_bound_witness :
    ((((add_container_to_pool (some [1, 2, 3, 4, 5]) 6).1).getD []).length ≤ max_pool_size ∧
     ([1, 2, 3, 4, 5].length = max_pool_size →
       add_container_to_pool (some [1, 2, 3, 4, 5]) 6 = (some [1, 2, 3, 4, 5], true))) :=
  C9_pool_bound [1, 2, 3, 4, 5] 6 (by decide)

/-- C10: for `n ≥ 2` execution times, the percentile indices
`int(n * 0.95)` and `int(n * 0.99)` are strictly below `n`, and sorting
preserves the length, so the indexing into the sorted list in
`get_aggregated_metrics` is always in bounds. -/
theorem C10_percentile_inbounds (times : List Int) (h2 : 2 ≤ times.length) :
    (percentileIndex times.length (95/100)).toNat < (pySorted times).length ∧
    (percentileIndex times.length (99/100)).toNat < (pySorted times).length := by
  have hlen : (pySorted times).length = times.length := by
    unfold pySorted
    exact List.length_insertionSort _ _
  have hn : (0:ℚ) < (times.length : ℚ) := by
    have : (0:ℕ) < times.length := by omega
    exact_mod_cast this
  have key : ∀ q : ℚ, 0 ≤ q → q < 1 →
      (percentileIndex times.length q).toNat < times.length := by
    intro q hq hq1
    unfold percentileIndex
    rw [pyInt_eq_floor _ (by positivity)]
    have hflt : ⌊(times.length : ℚ) * q⌋ < (times.length : ℤ) := by
      rw [Int.floor_lt]
      push_cast
      exact mul_lt_of_lt_one_right hn hq1
    omega
  rw [hlen]
  exact ⟨key _ (by norm_num) (by norm_num), key _ (by norm_num) (by norm_num)⟩

theorem C10_percentile_inbounds_witness :
    (percentileIndex ([3, 1] : List Int).length (95/100)).toNat
        < (pySorted [3, 1]).length ∧
    (percentileIndex ([3, 1] : List Int).length (99/100)).toNat
        < (pySorted [3, 1]).length :=
  C10_percentile_inbounds [3, 1] (by decide)

end LambdaServerless
